import Mathlib

/-!  Verification of the Mini-Agent-Engine workflow system (`src/main.py`).

The Python program is shallowly embedded below: dictionaries become
association lists, mutable state becomes explicit state passing, and raised
exceptions become explicit `raised`/`exn` results carrying the error message
and the state as mutated so far.  All definitions are translated from the
source file, keeping the source names where Lean allows it.  -/

/-- Python values stored in the working-state dict of `src/main.py`: the
fixture nodes only ever store strings, integers, and lists of strings in
`WorkflowState.data`. -/
inductive Value where
  | vStr (s : String)
  | vInt (n : Int)
  | vList (l : List String)
  deriving DecidableEq, Repr

/-- A Python dict from string keys, as an insertion-ordered association
list: lookup takes the first (unique) match, assignment replaces in place
or appends a fresh key at the end, as CPython dicts do. -/
def alistGet? {α : Type} (l : List (String × α)) (k : String) : Option α :=
  match l with
  | [] => none
  | (k1, v) :: rest => if k1 = k then some v else alistGet? rest k

/-- The working-state dictionary (`state.data` / the `state: Dict` argument
of the node functions). -/
abbrev Data := List (String × Value)

/-- Python dict assignment `d[k] = v`. -/
def dataSet (d : Data) (k : String) (v : Value) : Data :=
  match d with
  | [] => [(k, v)]
  | (k1, v1) :: rest => if k1 = k then (k1, v) :: rest else (k1, v1) :: dataSet rest k v

/-- Python `state.get(k, dflt)` at string-valued keys (the shapes the
fixture nodes store are covered by `Value`). -/
def dataGetStr (d : Data) (k : String) (dflt : String) : String :=
  match alistGet? d k with
  | some (Value.vStr s) => s
  | _ => dflt

/-- Python `state.get(k, dflt)` at integer-valued keys. -/
def dataGetInt (d : Data) (k : String) (dflt : Int) : Int :=
  match alistGet? d k with
  | some (Value.vInt n) => n
  | _ => dflt

/-- Python `state.get(k, [])` at list-of-string-valued keys. -/
def dataGetList (d : Data) (k : String) : List String :=
  match alistGet? d k with
  | some (Value.vList l) => l
  | _ => []

/-- Python truthiness of a stored value: empty string, zero and empty list
are falsy. -/
def Value.truthy : Value → Bool
  | Value.vStr s => s != ""
  | Value.vInt n => n != 0
  | Value.vList l => !l.isEmpty

/-- Python truthiness of `state.get(k)`: a missing key yields `None`,
which is falsy. -/
def pyTruthy? : Option Value → Bool
  | none => false
  | some v => v.truthy

/-- `WorkflowState` of `src/main.py`: the shared `data` dict plus the
append-only `history` log. -/
structure WorkflowState where
  data : Data
  history : List String
  deriving DecidableEq, Repr

/-- One entry of the `edges` dict of a `GraphDefinition`: either an
unconditional successor name (`str`) or a conditional mapping from outcome
label to successor-or-terminal (`Dict[str, Optional[str]]`, `none` being
the terminal marker `None`). -/
inductive EdgeConfig where
  | unconditional (target : String)
  | conditional (mapping : List (String × Option String))
  deriving DecidableEq, Repr

abbrev EdgeMap := List (String × EdgeConfig)

/-- `GraphDefinition` of `src/main.py` (a successfully constructed one). -/
structure GraphDefinition where
  nodes : List String
  edges : EdgeMap
  start_node : String
  deriving DecidableEq, Repr

/-- The pydantic validator `validate_start_node`: `start_node` must be a
member of the `nodes` list.  (`nodes` has no validator of its own, so it is
always present in `values`.) -/
def validate_start_node (nodes : List String) (v : String) : Except String String :=
  if v ∉ nodes then Except.error ("start_node \x27" ++ v ++ "\x27 must be in nodes list")
  else Except.ok v

/-- The inner loop of the pydantic validator `validate_edges` over the
items of a conditional mapping: every destination that is not the terminal
marker `None` must be a member of `nodes`. -/
def validateCondTargets (nodes : List String) : List (String × Option String) → Except String Unit
  | [] => Except.ok ()
  | (_, none) :: rest => validateCondTargets nodes rest
  | (_, some dest) :: rest =>
    if dest ∉ nodes then Except.error ("Edge target \x27" ++ dest ++ "\x27 not in nodes list")
    else validateCondTargets nodes rest

/-- The pydantic validator `validate_edges`: every edge source must be a
member of `nodes`, an unconditional target must be a member of `nodes`, and
every non-terminal conditional destination must be a member of `nodes`. -/
def validate_edges (nodes : List String) : EdgeMap → Except String Unit
  | [] => Except.ok ()
  | (source, target) :: rest =>
    if source ∉ nodes then Except.error ("Edge source \x27" ++ source ++ "\x27 not in nodes list")
    else
      match target with
      | EdgeConfig.unconditional t =>
        if t ∉ nodes then Except.error ("Edge target \x27" ++ t ++ "\x27 not in nodes list")
        else validate_edges nodes rest
      | EdgeConfig.conditional m =>
        match validateCondTargets nodes m with
        | Except.error e => Except.error e
        | Except.ok _ => validate_edges nodes rest

/-- Constructing a `GraphDefinition(...)`: pydantic runs the field
validators (fields without a validator always pass) and construction
succeeds exactly when every validator passes; on failure a validation
error carrying the offending validator message is raised. -/
def mkGraphDefinition (nodes : List String) (edges : EdgeMap) (start_node : String) :
    Except String GraphDefinition :=
  match validate_edges nodes edges with
  | Except.error e => Except.error e
  | Except.ok _ =>
    match validate_start_node nodes start_node with
    | Except.error e => Except.error e
    | Except.ok v => Except.ok { nodes := nodes, edges := edges, start_node := v }

/-- The value a step function hands back, as the engine inspects it with
`isinstance(result, str)`: a string, `None` (no `return`), or any other
non-string value. -/
inductive RetVal where
  | pyStr (s : String)
  | pyNone
  | pyOther
  deriving DecidableEq, Repr

/-- Invoking a step either returns a value or raises an exception whose
`str(e)` is `msg`; either way the shared `data` dict may have been mutated
before the step finished. -/
inductive StepOutcome where
  | ret (v : RetVal)
  | exn (msg : String)

/-- A registered step function: it receives the `data` dict (not the full
`WorkflowState`) and yields the updated dict together with its outcome. -/
abbrev Step := Data → Data × StepOutcome

/-- The process-wide `tool_registry` dict. -/
abbrev Registry := List (String × Step)

/-- `return result if isinstance(result, str) else "next"` in
`execute_node`. -/
def outcomeOf : RetVal → String
  | RetVal.pyStr s => s
  | RetVal.pyNone => "next"
  | RetVal.pyOther => "next"

/-- Result of `WorkflowEngine.execute_node`: a returned outcome label, or a
propagated exception with message `msg`; both carry the state as left
behind. -/
inductive ExecResult where
  | ok (outcome : String) (st : WorkflowState)
  | exn (msg : String) (st : WorkflowState)

/-- `WorkflowEngine.execute_node` of `src/main.py`: raise a not-found
`ValueError` when the node is unregistered (before touching the state),
otherwise log `"Executing: <name>"`, invoke the step on `state.data`, and
either canonicalize its return value into an outcome label or log
`"Error in <name>: <msg>"` and re-raise. -/
def execute_node (registry : Registry) (node_name : String) (st : WorkflowState) : ExecResult :=
  match alistGet? registry node_name with
  | none => ExecResult.exn ("Node \x27" ++ node_name ++ "\x27 not found in registry.") st
  | some func =>
    let st1 : WorkflowState := { st with history := st.history ++ ["Executing: " ++ node_name] }
    match func st1.data with
    | (d, StepOutcome.ret v) => ExecResult.ok (outcomeOf v) { st1 with data := d }
    | (d, StepOutcome.exn msg) =>
        ExecResult.exn msg
          { data := d, history := st1.history ++ ["Error in " ++ node_name ++ ": " ++ msg] }

/-- The truncation entry `f"Max steps ({self.max_steps}) reached. Terminating."`. -/
def maxStepsMsg (maxSteps : Nat) : String :=
  "Max steps (" ++ toString maxSteps ++ ") reached. Terminating."

/-- The warning entry
`f"Warning: Outcome '{outcome}' not defined in edges for node. Ending workflow."`. -/
def outcomeWarning (outcome : String) : String :=
  "Warning: Outcome \x27" ++ outcome ++ "\x27 not defined in edges for node. Ending workflow."

/-- How the `while current_node:` loop of `run_workflow` ends: a normal
exit with the final state, or a propagated exception. -/
inductive LoopResult where
  | exited (st : WorkflowState)
  | raised (msg : String) (st : WorkflowState)

/-- The `while current_node:` loop of `WorkflowEngine.run_workflow`.
`remaining` is the number of node executions the step cap still allows:
the Python counter satisfies `remaining = max_steps - steps`, so the
post-increment check `steps > max_steps` fires exactly when the loop is
re-entered with `remaining = 0`.  A `current_node` of `None` or `""` is
falsy and exits the loop; `if not edge_config` likewise treats a missing
edge, an empty-string target and an empty conditional dict as loop
exits. -/
def runLoop (g : GraphDefinition) (reg : Registry) (maxSteps : Nat) :
    Nat → Option String → WorkflowState → LoopResult
  | _, none, st => LoopResult.exited st
  | remaining, some name, st =>
    if name = "" then LoopResult.exited st
    else
      match remaining with
      | 0 => LoopResult.exited { st with history := st.history ++ [maxStepsMsg maxSteps] }
      | r + 1 =>
        match execute_node reg name st with
        | ExecResult.exn msg st1 => LoopResult.raised msg st1
        | ExecResult.ok outcome st1 =>
          match alistGet? g.edges name with
          | none => LoopResult.exited st1
          | some (EdgeConfig.unconditional t) =>
            if t = "" then LoopResult.exited st1
            else runLoop g reg maxSteps r (some t) st1
          | some (EdgeConfig.conditional m) =>
            if m.isEmpty then LoopResult.exited st1
            else
              match alistGet? m outcome with
              | none =>
                LoopResult.exited
                  { st1 with history := st1.history ++ [outcomeWarning outcome] }
              | some next => runLoop g reg maxSteps r next st1

/-- Result of `WorkflowEngine.run_workflow`: normal completion (after the
final `"Workflow Completed."` append) or a propagated exception. -/
inductive RunResult where
  | completed (st : WorkflowState)
  | failed (msg : String) (st : WorkflowState)
  deriving DecidableEq, Repr

/-- `WorkflowEngine.run_workflow` of `src/main.py`: run the traversal loop
from `start_node` with a fresh step counter; on any loop exit append the
final `"Workflow Completed."` entry, while a propagated exception unwinds
past that append. -/
def run_workflow (g : GraphDefinition) (reg : Registry) (maxSteps : Nat) (st : WorkflowState) :
    RunResult :=
  match runLoop g reg maxSteps maxSteps (some g.start_node) st with
  | LoopResult.exited st1 =>
    RunResult.completed { st1 with history := st1.history ++ ["Workflow Completed."] }
  | LoopResult.raised msg st1 => RunResult.failed msg st1

/-- `self.max_steps = 50` of the process-wide `engine`. -/
def engineMaxSteps : Nat := 50

/-- `WorkflowStatus` of `src/main.py`. -/
inductive WorkflowStatus where
  | PENDING
  | RUNNING
  | COMPLETED
  | FAILED
  deriving DecidableEq, Repr

/-- `WorkflowRun` of `src/main.py` (the generated uuid `run_id` is outside
the model). -/
structure WorkflowRun where
  graph_id : String
  status : WorkflowStatus
  state : WorkflowState
  current_node : Option String
  error : Option String
  deriving DecidableEq, Repr

/-- `run_workflow_background` of `src/main.py`: mark the run RUNNING, look
up its graph and run the engine; on success mark it COMPLETED, on any
exception mark it FAILED, record `str(e)` in `error` and append
`"Workflow failed: <msg>"` to the history.  A missing graph id raises
`KeyError`, whose `str` is the quoted key. -/
def run_workflow_background (graphs_db : List (String × GraphDefinition)) (reg : Registry)
    (run : WorkflowRun) : WorkflowRun :=
  let run1 : WorkflowRun := { run with status := WorkflowStatus.RUNNING }
  match alistGet? graphs_db run.graph_id with
  | none =>
    { run1 with
      status := WorkflowStatus.FAILED,
      error := some ("\x27" ++ run.graph_id ++ "\x27"),
      state := { run1.state with
        history := run1.state.history ++ ["Workflow failed: \x27" ++ run.graph_id ++ "\x27"] } }
  | some graph =>
    match run_workflow graph reg engineMaxSteps run1.state with
    | RunResult.completed st1 => { run1 with status := WorkflowStatus.COMPLETED, state := st1 }
    | RunResult.failed msg st1 =>
      { run1 with
        status := WorkflowStatus.FAILED,
        error := some msg,
        state := { st1 with history := st1.history ++ ["Workflow failed: " ++ msg] } }

/-- Python `str` of a list of strings, as an f-string renders it:
`['a', 'b']`. -/
def pyReprStrList (l : List String) : String :=
  "[" ++ joinWith ", " (l.map (fun s => "\x27" ++ s ++ "\x27")) ++ "]"
where
  joinWith (sep : String) : List String → String
    | [] => ""
    | [x] => x
    | x :: y :: rest => x ++ sep ++ joinWith sep (y :: rest)

/-- Result of the `POST /graph/run` handler `run_graph`: a 404, a 400, or
an accepted submission whose fresh run record is stored PENDING and whose
background execution task has been scheduled. -/
inductive RunGraphResult where
  | notFound (detail : String)
  | badRequest (detail : String)
  | submitted (run : WorkflowRun)
  deriving DecidableEq, Repr

/-- `run_graph` of `src/main.py`: 404 when the graph id is unknown; 400
listing the unregistered node names when any graph node lacks a registered
step (checked before any run state exists); otherwise create the run
PENDING with the caller-supplied initial data and an empty history, and
schedule `run_workflow_background`. -/
def run_graph (graphs_db : List (String × GraphDefinition)) (registry : Registry)
    (graph_id : String) (initial_state : Data) : RunGraphResult :=
  match alistGet? graphs_db graph_id with
  | none => RunGraphResult.notFound ("Graph \x27" ++ graph_id ++ "\x27 not found")
  | some graph =>
    let unregistered_nodes := graph.nodes.filter (fun node => (alistGet? registry node).isNone)
    if unregistered_nodes.isEmpty then
      RunGraphResult.submitted
        { graph_id := graph_id,
          status := WorkflowStatus.PENDING,
          state := { data := initial_state, history := [] },
          current_node := none,
          error := none }
    else
      RunGraphResult.badRequest
        ("The following nodes are not registered: " ++ pyReprStrList unregistered_nodes)

/-- Character-list membership of a pattern at the front: helper for the
Python substring operator. -/
def isPrefixChars : List Char → List Char → Bool
  | [], _ => true
  | _ :: _, [] => false
  | p :: ps, c :: cs => p == c && isPrefixChars ps cs

/-- Python `pat in s` on strings (substring containment), over the
character lists. -/
def containsChars (pat : List Char) : List Char → Bool
  | [] => pat.isEmpty
  | c :: cs => isPrefixChars pat (c :: cs) || containsChars pat cs

/-- Python `pat in s` on strings. -/
def pyInStr (pat s : String) : Bool :=
  containsChars pat.data s.data

/-- Helper for Python `s.split("\n")`: walk the characters, cutting at
every newline; the accumulator holds the current piece reversed. -/
def splitLinesAux : List Char → List Char → List String
  | [], acc => [String.mk acc.reverse]
  | c :: cs, acc =>
    if c = '\n' then String.mk acc.reverse :: splitLinesAux cs []
    else splitLinesAux cs (c :: acc)

/-- Python `s.split("\n")`: every maximal newline-free piece, in order,
including empty pieces. -/
def pySplitNewlines (s : String) : List String :=
  splitLinesAux s.data []

/-- `node_extract_functions` of `src/main.py`: collect the lines of the
`code` field that contain `"def "`. -/
def node_extract_functions : Step := fun state =>
  let code := dataGetStr state "code" ""
  (dataSet state "functions"
      (Value.vList ((pySplitNewlines code).filter (fun line => pyInStr "def " line))),
    StepOutcome.ret RetVal.pyNone)

/-- `node_check_complexity` of `src/main.py`:
`complexity_score = len(state.get("functions", [])) * 2`. -/
def node_check_complexity : Step := fun state =>
  (dataSet state "complexity_score"
      (Value.vInt (Int.ofNat (dataGetList state "functions").length * 2)),
    StepOutcome.ret RetVal.pyNone)

/-- `node_detect_issues` of `src/main.py`: one canned issue when the
complexity score exceeds 5, else no issues. -/
def node_detect_issues : Step := fun state =>
  let complexity := dataGetInt state "complexity_score" 0
  (dataSet state "issues"
      (Value.vList (if complexity > 5 then ["Line 10: Too long"] else [])),
    StepOutcome.ret RetVal.pyNone)

/-- `node_suggest_improvements` of `src/main.py`: with issues present, set
a suggestion and add 20 to the quality score (from 0 if absent); otherwise
set the happy suggestion and a quality score of 100. -/
def node_suggest_improvements : Step := fun state =>
  if pyTruthy? (alistGet? state "issues") then
    let state1 := dataSet state "suggestions" (Value.vStr "Refactor logic to reduce complexity")
    (dataSet state1 "quality_score" (Value.vInt (dataGetInt state1 "quality_score" 0 + 20)),
      StepOutcome.ret RetVal.pyNone)
  else
    let state1 := dataSet state "suggestions" (Value.vStr "Code looks good!")
    (dataSet state1 "quality_score" (Value.vInt 100), StepOutcome.ret RetVal.pyNone)

/-- `node_quality_gate` of `src/main.py`: append a score report to the
node-local `state["history"]` list — a plain subscript, so a missing key
raises `KeyError` (whose `str` is the quoted key) and a non-list value
raises `AttributeError` — then return `"pass"` iff the score is at least
80, else `"retry"`. -/
def node_quality_gate : Step := fun state =>
  let score := dataGetInt state "quality_score" 0
  match alistGet? state "history" with
  | none => (state, StepOutcome.exn "\x27history\x27")
  | some (Value.vStr _) => (state, StepOutcome.exn "\x27str\x27 object has no attribute \x27append\x27")
  | some (Value.vInt _) => (state, StepOutcome.exn "\x27int\x27 object has no attribute \x27append\x27")
  | some (Value.vList h) =>
    let state1 := dataSet state "history"
      (Value.vList (h ++ ["Quality Gate: score=" ++ toString score]))
    (state1, StepOutcome.ret (RetVal.pyStr (if score ≥ 80 then "pass" else "retry")))

/-- The process-wide `tool_registry` after the five `register_tool` calls
at module import. -/
def fixtureRegistry : Registry :=
  [("extract_functions", node_extract_functions),
   ("check_complexity", node_check_complexity),
   ("detect_issues", node_detect_issues),
   ("suggest_improvements", node_suggest_improvements),
   ("quality_gate", node_quality_gate)]

/-- The preloaded fixture graph `"code-review-agent"` installed by
`lifespan` at startup. -/
def fixtureGraph : GraphDefinition :=
  { nodes :=
      ["extract_functions", "check_complexity", "detect_issues",
       "suggest_improvements", "quality_gate"],
    edges :=
      [("extract_functions", EdgeConfig.unconditional "check_complexity"),
       ("check_complexity", EdgeConfig.unconditional "detect_issues"),
       ("detect_issues", EdgeConfig.unconditional "suggest_improvements"),
       ("suggest_improvements", EdgeConfig.unconditional "quality_gate"),
       ("quality_gate",
         EdgeConfig.conditional [("retry", some "detect_issues"), ("pass", none)])],
    start_node := "extract_functions" }

/-- The `graphs_db` store after startup. -/
def fixtureGraphsDb : List (String × GraphDefinition) :=
  [("code-review-agent", fixtureGraph)]

deriving instance DecidableEq for ExecResult
deriving instance DecidableEq for LoopResult

/-- The state a node execution leaves behind, whether it returned or
raised: used to name the intermediate states of concrete runs. -/
def stepState (name : String) (st : WorkflowState) : WorkflowState :=
  match execute_node fixtureRegistry name st with
  | ExecResult.ok _ st1 => st1
  | ExecResult.exn _ st1 => st1

/-- The history carried by either loop outcome. -/
def loopState : LoopResult → WorkflowState
  | LoopResult.exited st => st
  | LoopResult.raised _ st => st

/-- The history carried by either run outcome. -/
def runHistory : RunResult → List String
  | RunResult.completed st => st.history
  | RunResult.failed _ st => st.history

/-- A step that does nothing and returns `None`. -/
def noneStep : Step := fun d => (d, StepOutcome.ret RetVal.pyNone)

/-- A step that raises an exception with message `boom`. -/
def failStep : Step := fun d => (d, StepOutcome.exn "boom")

/-- A step that returns the string `go`. -/
def strStep : Step := fun d => (d, StepOutcome.ret (RetVal.pyStr "go"))

/-- A step that returns a non-string, non-`None` value. -/
def otherStep : Step := fun d => (d, StepOutcome.ret RetVal.pyOther)

/-- A registry with the single do-nothing node `a`. -/
def aRegistry : Registry := [("a", noneStep)]

/-- A one-node graph with no outgoing edges. -/
def simpleGraph : GraphDefinition :=
  { nodes := ["a"], edges := [], start_node := "a" }

/-- A one-node graph whose only edge is a conditional mapping that does
not contain the default outcome label `next`. -/
def condGraph : GraphDefinition :=
  { nodes := ["a"], edges := [("a", EdgeConfig.conditional [("x", some "a")])], start_node := "a" }

/-- A one-node graph whose only edge is an empty conditional mapping:
`if not edge_config` treats it as falsy, like a missing edge. -/
def emptyCondGraph : GraphDefinition :=
  { nodes := ["a"], edges := [("a", EdgeConfig.conditional [])], start_node := "a" }

/-- A one-node cyclic graph: `a` unconditionally loops to itself and no
terminal marker exists anywhere. -/
def cycleGraph : GraphDefinition :=
  { nodes := ["a"], edges := [("a", EdgeConfig.unconditional "a")], start_node := "a" }

/-- The initial data of the fixture scenario with `history` preseeded
(spec test 9). -/
def c8data : Data :=
  [("code", Value.vStr "def a():\n  pass\ndef b():\n  pass\ndef c():\n  pass"),
   ("history", Value.vList [])]

/-- The initial data of the fixture scenario with `history` absent
(spec test 8). -/
def c9data : Data :=
  [("code", Value.vStr "def a():\n  pass\ndef b():\n  pass\ndef c():\n  pass")]

def c8s0 : WorkflowState := { data := c8data, history := [] }

def c8s1 : WorkflowState := stepState "extract_functions" c8s0

def c8s2 : WorkflowState := stepState "check_complexity" c8s1

def c8s3 : WorkflowState := stepState "detect_issues" c8s2

def c8s4 : WorkflowState := stepState "suggest_improvements" c8s3

def c8s5 : WorkflowState := stepState "quality_gate" c8s4

def c8s6 : WorkflowState := stepState "detect_issues" c8s5

def c8s7 : WorkflowState := stepState "suggest_improvements" c8s6

def c8s8 : WorkflowState := stepState "quality_gate" c8s7

def c8s9 : WorkflowState := stepState "detect_issues" c8s8

def c8s10 : WorkflowState := stepState "suggest_improvements" c8s9

def c8s11 : WorkflowState := stepState "quality_gate" c8s10

def c8s12 : WorkflowState := stepState "detect_issues" c8s11

def c8s13 : WorkflowState := stepState "suggest_improvements" c8s12

def c8s14 : WorkflowState := stepState "quality_gate" c8s13

def c9s0 : WorkflowState := { data := c9data, history := [] }

def c9s1 : WorkflowState := stepState "extract_functions" c9s0

def c9s2 : WorkflowState := stepState "check_complexity" c9s1

def c9s3 : WorkflowState := stepState "detect_issues" c9s2

def c9s4 : WorkflowState := stepState "suggest_improvements" c9s3

def c9s5 : WorkflowState := stepState "quality_gate" c9s4

theorem runLoop_none (g : GraphDefinition) (reg : Registry) (ms r : Nat) (st : WorkflowState) :
    runLoop g reg ms r none st = LoopResult.exited st := by
  rw [runLoop]

theorem runLoop_emptyname (g : GraphDefinition) (reg : Registry) (ms r : Nat)
    (st : WorkflowState) :
    runLoop g reg ms r (some "") st = LoopResult.exited st := by
  cases r <;> rfl

theorem runLoop_cap (g : GraphDefinition) (reg : Registry) (ms : Nat) (name : String)
    (st : WorkflowState) (hname : ¬ name = "") :
    runLoop g reg ms 0 (some name) st =
      LoopResult.exited { st with history := st.history ++ [maxStepsMsg ms] } := by
  rw [runLoop, if_neg hname]

theorem runLoop_step_raised (g : GraphDefinition) (reg : Registry) (ms r : Nat)
    (name : String) (st st1 : WorkflowState) (msg : String)
    (hname : ¬ name = "")
    (hex : execute_node reg name st = ExecResult.exn msg st1) :
    runLoop g reg ms (r + 1) (some name) st = LoopResult.raised msg st1 := by
  rw [runLoop, if_neg hname, hex]

theorem runLoop_exit_noedge (g : GraphDefinition) (reg : Registry) (ms r : Nat)
    (name : String) (st st1 : WorkflowState) (o : String)
    (hname : ¬ name = "")
    (hex : execute_node reg name st = ExecResult.ok o st1)
    (hedge : alistGet? g.edges name = none) :
    runLoop g reg ms (r + 1) (some name) st = LoopResult.exited st1 := by
  rw [runLoop, if_neg hname, hex, hedge]

theorem runLoop_exit_uncond_empty (g : GraphDefinition) (reg : Registry) (ms r : Nat)
    (name : String) (st st1 : WorkflowState) (o : String)
    (hname : ¬ name = "")
    (hex : execute_node reg name st = ExecResult.ok o st1)
    (hedge : alistGet? g.edges name = some (EdgeConfig.unconditional "")) :
    runLoop g reg ms (r + 1) (some name) st = LoopResult.exited st1 := by
  rw [runLoop, if_neg hname, hex, hedge]
  rfl

theorem runLoop_step_uncond (g : GraphDefinition) (reg : Registry) (ms r : Nat)
    (name : String) (st st1 : WorkflowState) (o t : String)
    (hname : ¬ name = "")
    (hex : execute_node reg name st = ExecResult.ok o st1)
    (hedge : alistGet? g.edges name = some (EdgeConfig.unconditional t))
    (ht : ¬ t = "") :
    runLoop g reg ms (r + 1) (some name) st = runLoop g reg ms r (some t) st1 := by
  rw [runLoop, if_neg hname, hex, hedge]
  simp only []
  rw [if_neg ht]

theorem runLoop_exit_cond_empty (g : GraphDefinition) (reg : Registry) (ms r : Nat)
    (name : String) (st st1 : WorkflowState) (o : String)
    (hname : ¬ name = "")
    (hex : execute_node reg name st = ExecResult.ok o st1)
    (hedge : alistGet? g.edges name = some (EdgeConfig.conditional [])) :
    runLoop g reg ms (r + 1) (some name) st = LoopResult.exited st1 := by
  rw [runLoop, if_neg hname, hex, hedge]
  rfl

theorem runLoop_exit_warn (g : GraphDefinition) (reg : Registry) (ms r : Nat)
    (name : String) (st st1 : WorkflowState) (o : String)
    (m : List (String × Option String))
    (hname : ¬ name = "")
    (hex : execute_node reg name st = ExecResult.ok o st1)
    (hedge : alistGet? g.edges name = some (EdgeConfig.conditional m))
    (hm : m.isEmpty = false)
    (hlook : alistGet? m o = none) :
    runLoop g reg ms (r + 1) (some name) st =
      LoopResult.exited { st1 with history := st1.history ++ [outcomeWarning o] } := by
  rw [runLoop, if_neg hname, hex, hedge]
  simp only []
  rw [hm, hlook]
  rfl

theorem runLoop_step_cond (g : GraphDefinition) (reg : Registry) (ms r : Nat)
    (name : String) (st st1 : WorkflowState) (o : String)
    (m : List (String × Option String)) (next : Option String)
    (hname : ¬ name = "")
    (hex : execute_node reg name st = ExecResult.ok o st1)
    (hedge : alistGet? g.edges name = some (EdgeConfig.conditional m))
    (hm : m.isEmpty = false)
    (hlook : alistGet? m o = some next) :
    runLoop g reg ms (r + 1) (some name) st = runLoop g reg ms r next st1 := by
  rw [runLoop, if_neg hname, hex, hedge]
  simp only []
  rw [hm, hlook]
  rfl

theorem execute_node_ok_eq (reg : Registry) (name : String) (f : Step) (st : WorkflowState)
    (d1 : Data) (v : RetVal)
    (hf : alistGet? reg name = some f)
    (hrun : f st.data = (d1, StepOutcome.ret v)) :
    execute_node reg name st =
      ExecResult.ok (outcomeOf v)
        { data := d1, history := st.history ++ ["Executing: " ++ name] } := by
  simp only [execute_node, hf]
  rw [hrun]

theorem execute_node_exn_eq (reg : Registry) (name : String) (f : Step) (st : WorkflowState)
    (d1 : Data) (msg : String)
    (hf : alistGet? reg name = some f)
    (hrun : f st.data = (d1, StepOutcome.exn msg)) :
    execute_node reg name st =
      ExecResult.exn msg
        { data := d1,
          history := (st.history ++ ["Executing: " ++ name]) ++
            ["Error in " ++ name ++ ": " ++ msg] } := by
  simp only [execute_node, hf]
  rw [hrun]

theorem execute_node_ok_history (reg : Registry) (name : String) (st : WorkflowState)
    (o : String) (st1 : WorkflowState)
    (h : execute_node reg name st = ExecResult.ok o st1) :
    st1.history = st.history ++ ["Executing: " ++ name] := by
  rcases hreg : alistGet? reg name with _ | f
  · simp only [execute_node, hreg] at h
    cases h
  · rcases hrun : f st.data with ⟨d1, so⟩
    cases so with
    | ret v =>
      rw [execute_node_ok_eq reg name f st d1 v hreg hrun] at h
      cases h
      rfl
    | exn msg =>
      rw [execute_node_exn_eq reg name f st d1 msg hreg hrun] at h
      cases h

theorem execute_node_exn_history (reg : Registry) (name : String) (st : WorkflowState)
    (msg : String) (st1 : WorkflowState)
    (h : execute_node reg name st = ExecResult.exn msg st1) :
    st1.history = st.history ∨
      st1.history = (st.history ++ ["Executing: " ++ name]) ++
        ["Error in " ++ name ++ ": " ++ msg] := by
  rcases hreg : alistGet? reg name with _ | f
  · simp only [execute_node, hreg] at h
    cases h
    exact Or.inl rfl
  · rcases hrun : f st.data with ⟨d1, so⟩
    cases so with
    | ret v =>
      rw [execute_node_ok_eq reg name f st d1 v hreg hrun] at h
      cases h
    | exn m2 =>
      rw [execute_node_exn_eq reg name f st d1 m2 hreg hrun] at h
      cases h
      exact Or.inr rfl

theorem executing_ne_wc (s : String) : ¬ ("Executing: " ++ s = "Workflow Completed.") := by
  intro he
  have h : List.take 1 ("Executing: " ++ s).data =
      List.take 1 "Workflow Completed.".data := by rw [he]
  rw [String.data_append] at h
  have h2 : (['E'] : List Char) = ['W'] := h
  exact absurd h2 (by decide)

theorem error_ne_wc (s m : String) :
    ¬ ("Error in " ++ s ++ ": " ++ m = "Workflow Completed.") := by
  intro he
  have h : List.take 1 ("Error in " ++ s ++ ": " ++ m).data =
      List.take 1 "Workflow Completed.".data := by rw [he]
  rw [String.data_append, String.data_append, String.data_append] at h
  have h2 : (['E'] : List Char) = ['W'] := h
  exact absurd h2 (by decide)

theorem maxStepsMsg_ne_wc (ms : Nat) : ¬ (maxStepsMsg ms = "Workflow Completed.") := by
  intro he
  have h : List.take 1 (maxStepsMsg ms).data =
      List.take 1 "Workflow Completed.".data := by rw [he]
  simp only [maxStepsMsg, String.data_append] at h
  have h2 : (['M'] : List Char) = ['W'] := h
  exact absurd h2 (by decide)

theorem outcomeWarning_ne_wc (o : String) : ¬ (outcomeWarning o = "Workflow Completed.") := by
  intro he
  have h : List.take 2 (outcomeWarning o).data =
      List.take 2 "Workflow Completed.".data := by rw [he]
  simp only [outcomeWarning, String.data_append] at h
  have h2 : (['W', 'a'] : List Char) = ['W', 'o'] := h
  exact absurd h2 (by decide)

theorem runLoop_appends_no_wc (g : GraphDefinition) (reg : Registry) (ms : Nat) :
    ∀ (r : Nat) (cur : Option String) (st : WorkflowState),
      ∃ ex, (loopState (runLoop g reg ms r cur st)).history = st.history ++ ex ∧
        ∀ e ∈ ex, ¬ e = "Workflow Completed." := by
  intro r
  induction r with
  | zero =>
    intro cur st
    rcases cur with _ | name
    · exact ⟨[], by rw [runLoop_none]; simp [loopState], by simp⟩
    · by_cases hname : name = ""
      · subst hname
        exact ⟨[], by rw [runLoop_emptyname]; simp [loopState], by simp⟩
      · refine ⟨[maxStepsMsg ms], ?_, ?_⟩
        · rw [runLoop_cap g reg ms name st hname]
          simp [loopState]
        · intro e he
          rw [List.mem_singleton] at he
          subst he
          exact maxStepsMsg_ne_wc ms
  | succ n ih =>
    intro cur st
    rcases cur with _ | name
    · exact ⟨[], by rw [runLoop_none]; simp [loopState], by simp⟩
    · by_cases hname : name = ""
      · subst hname
        exact ⟨[], by rw [runLoop_emptyname]; simp [loopState], by simp⟩
      · rcases hex : execute_node reg name st with ⟨o, st1⟩ | ⟨msg, st1⟩
        · have hh1 := execute_node_ok_history reg name st o st1 hex
          rcases hedge : alistGet? g.edges name with _ | ec
          · refine ⟨["Executing: " ++ name], ?_, ?_⟩
            · rw [runLoop_exit_noedge g reg ms n name st st1 o hname hex hedge]
              simpa [loopState] using hh1
            · intro e he
              rw [List.mem_singleton] at he
              subst he
              exact executing_ne_wc name
          · cases ec with
            | unconditional t =>
              by_cases ht : t = ""
              · subst ht
                refine ⟨["Executing: " ++ name], ?_, ?_⟩
                · rw [runLoop_exit_uncond_empty g reg ms n name st st1 o hname hex hedge]
                  simpa [loopState] using hh1
                · intro e he
                  rw [List.mem_singleton] at he
                  subst he
                  exact executing_ne_wc name
              · obtain ⟨ex1, hex1, hne1⟩ := ih (some t) st1
                refine ⟨("Executing: " ++ name) :: ex1, ?_, ?_⟩
                · rw [runLoop_step_uncond g reg ms n name st st1 o t hname hex hedge ht]
                  rw [hex1, hh1]
                  simp
                · intro e he
                  rcases List.mem_cons.mp he with h1 | h1
                  · subst h1
                    exact executing_ne_wc name
                  · exact hne1 e h1
            | conditional m =>
              rcases m with _ | ⟨p, rest⟩
              · refine ⟨["Executing: " ++ name], ?_, ?_⟩
                · rw [runLoop_exit_cond_empty g reg ms n name st st1 o hname hex hedge]
                  simpa [loopState] using hh1
                · intro e he
                  rw [List.mem_singleton] at he
                  subst he
                  exact executing_ne_wc name
              · rcases hlook : alistGet? (p :: rest) o with _ | next
                · refine ⟨["Executing: " ++ name, outcomeWarning o], ?_, ?_⟩
                  · rw [runLoop_exit_warn g reg ms n name st st1 o (p :: rest) hname hex hedge
                      rfl hlook]
                    simp [loopState, hh1]
                  · intro e he
                    rcases List.mem_cons.mp he with h1 | h1
                    · subst h1
                      exact executing_ne_wc name
                    · rw [List.mem_singleton] at h1
                      subst h1
                      exact outcomeWarning_ne_wc o
                · obtain ⟨ex1, hex1, hne1⟩ := ih next st1
                  refine ⟨("Executing: " ++ name) :: ex1, ?_, ?_⟩
                  · rw [runLoop_step_cond g reg ms n name st st1 o (p :: rest) next hname hex
                      hedge rfl hlook]
                    rw [hex1, hh1]
                    simp
                  · intro e he
                    rcases List.mem_cons.mp he with h1 | h1
                    · subst h1
                      exact executing_ne_wc name
                    · exact hne1 e h1
        · rcases execute_node_exn_history reg name st msg st1 hex with h1 | h1
          · refine ⟨[], ?_, by simp⟩
            rw [runLoop_step_raised g reg ms n name st st1 msg hname hex]
            simpa [loopState] using h1
          · refine ⟨["Executing: " ++ name, "Error in " ++ name ++ ": " ++ msg], ?_, ?_⟩
            · rw [runLoop_step_raised g reg ms n name st st1 msg hname hex]
              simp [loopState, h1]
            · intro e he
              rcases List.mem_cons.mp he with h2 | h2
              · subst h2
                exact executing_ne_wc name
              · rw [List.mem_singleton] at h2
                subst h2
                exact error_ne_wc name msg

/-- C1: for every graph and initial state, when the traversal loop of
`run_workflow` exits without a propagated step failure, exactly one final
`"Workflow Completed."` entry is appended and it is the last element of
`history` (nothing else the run appends equals that entry); when a step
failure propagates out of `run_workflow`, no such entry is appended. -/
theorem c1_workflow_completed_append (g : GraphDefinition) (reg : Registry) (maxSteps : Nat)
    (st : WorkflowState) :
    (∀ st1, run_workflow g reg maxSteps st = RunResult.completed st1 →
      ∃ ex, st1.history = (st.history ++ ex) ++ ["Workflow Completed."] ∧
        ¬ "Workflow Completed." ∈ ex) ∧
    (∀ msg st1, run_workflow g reg maxSteps st = RunResult.failed msg st1 →
      ∃ ex, st1.history = st.history ++ ex ∧ ¬ "Workflow Completed." ∈ ex) := by
  constructor
  · intro st1 h
    rcases hl : runLoop g reg maxSteps maxSteps (some g.start_node) st with st2 | ⟨msg2, st2⟩
    · unfold run_workflow at h
      rw [hl] at h
      cases h
      obtain ⟨ex, hex, hne⟩ := runLoop_appends_no_wc g reg maxSteps maxSteps (some g.start_node) st
      rw [hl] at hex
      simp only [loopState] at hex
      refine ⟨ex, ?_, ?_⟩
      · show st2.history ++ ["Workflow Completed."] = _
        rw [hex]
      · intro hmem
        exact hne _ hmem rfl
    · unfold run_workflow at h
      rw [hl] at h
      exact RunResult.noConfusion h
  · intro msg st1 h
    rcases hl : runLoop g reg maxSteps maxSteps (some g.start_node) st with st2 | ⟨msg2, st2⟩
    · unfold run_workflow at h
      rw [hl] at h
      exact RunResult.noConfusion h
    · unfold run_workflow at h
      rw [hl] at h
      cases h
      obtain ⟨ex, hex, hne⟩ := runLoop_appends_no_wc g reg maxSteps maxSteps (some g.start_node) st
      rw [hl] at hex
      simp only [loopState] at hex
      exact ⟨ex, hex, fun hmem => hne _ hmem rfl⟩

theorem c1_workflow_completed_append_witness :
    ∃ ex, (["Executing: a", "Workflow Completed."] : List String) =
        (([] : List String) ++ ex) ++ ["Workflow Completed."] ∧
      ¬ "Workflow Completed." ∈ ex :=
  (c1_workflow_completed_append simpleGraph aRegistry 50 { data := [], history := [] }).1
    { data := [], history := ["Executing: a", "Workflow Completed."] } (by decide)

theorem runLoop_cycle (g : GraphDefinition) (reg : Registry) (ms : Nat)
    (hedges : ∀ name ∈ g.nodes, ¬ name = "" ∧
      ∃ t, alistGet? g.edges name = some (EdgeConfig.unconditional t) ∧ t ∈ g.nodes)
    (hsteps : ∀ name ∈ g.nodes, ∃ f, alistGet? reg name = some f ∧
      ∀ d, ∃ d1 v, f d = (d1, StepOutcome.ret v)) :
    ∀ (r : Nat) (name : String) (st : WorkflowState), name ∈ g.nodes →
      ∃ ex d1, runLoop g reg ms r (some name) st =
          LoopResult.exited { data := d1, history := (st.history ++ ex) ++ [maxStepsMsg ms] } ∧
        ex.length = r ∧ ∀ e ∈ ex, ∃ nd, nd ∈ g.nodes ∧ e = "Executing: " ++ nd := by
  intro r
  induction r with
  | zero =>
    intro name st hmem
    obtain ⟨hne, _⟩ := hedges name hmem
    refine ⟨[], st.data, ?_, rfl, by simp⟩
    rw [runLoop_cap g reg ms name st hne]
    simp
  | succ n ih =>
    intro name st hmem
    obtain ⟨hne, t, hedge, htmem⟩ := hedges name hmem
    obtain ⟨f, hf, hfret⟩ := hsteps name hmem
    obtain ⟨d1, v, hrun⟩ := hfret st.data
    have hex := execute_node_ok_eq reg name f st d1 v hf hrun
    have htne : ¬ t = "" := (hedges t htmem).1
    obtain ⟨ex1, d2, hloop, hlen, hmemex⟩ :=
      ih t { data := d1, history := st.history ++ ["Executing: " ++ name] } htmem
    refine ⟨("Executing: " ++ name) :: ex1, d2, ?_, by simp [hlen], ?_⟩
    · rw [runLoop_step_uncond g reg ms n name st _ (outcomeOf v) t hne hex hedge htne]
      rw [hloop]
      simp
    · intro e he
      rcases List.mem_cons.mp he with h1 | h1
      · exact ⟨name, hmem, h1⟩
      · exact hmemex e h1

/-- C2: for every graph in which every node has a nonempty unconditional
successor inside the graph (a cycle with no terminal marker) and whose
steps always return normally, the background run executes exactly
`max_steps = 50` nodes, appends `"Max steps (50) reached. Terminating."`,
and finishes with status COMPLETED (then the final completion entry),
not FAILED. -/
theorem c2_cycle_truncation (g : GraphDefinition) (reg : Registry) (st : WorkflowState)
    (graphs_db : List (String × GraphDefinition)) (gid : String)
    (hstart : g.start_node ∈ g.nodes)
    (hedges : ∀ name ∈ g.nodes, ¬ name = "" ∧
      ∃ t, alistGet? g.edges name = some (EdgeConfig.unconditional t) ∧ t ∈ g.nodes)
    (hsteps : ∀ name ∈ g.nodes, ∃ f, alistGet? reg name = some f ∧
      ∀ d, ∃ d1 v, f d = (d1, StepOutcome.ret v))
    (hdb : alistGet? graphs_db gid = some g) :
    ∃ ex d1,
      run_workflow_background graphs_db reg
          { graph_id := gid, status := WorkflowStatus.PENDING, state := st,
            current_node := none, error := none } =
        { graph_id := gid, status := WorkflowStatus.COMPLETED,
          state :=
            { data := d1,
              history := ((st.history ++ ex) ++ ["Max steps (50) reached. Terminating."]) ++
                ["Workflow Completed."] },
          current_node := none, error := none } ∧
      ex.length = 50 ∧ ∀ e ∈ ex, ∃ nd, nd ∈ g.nodes ∧ e = "Executing: " ++ nd := by
  obtain ⟨ex, d1, hloop, hlen, hmem⟩ :=
    runLoop_cycle g reg 50 hedges hsteps 50 g.start_node st hstart
  have hrw : run_workflow g reg 50 st =
      RunResult.completed
        { data := d1,
          history := ((st.history ++ ex) ++ [maxStepsMsg 50]) ++ ["Workflow Completed."] } := by
    unfold run_workflow
    rw [hloop]
  refine ⟨ex, d1, ?_, hlen, hmem⟩
  simp only [run_workflow_background, hdb]
  rw [show engineMaxSteps = 50 from rfl, hrw]
  rfl

theorem c2_cycle_truncation_witness :
    ∃ ex d1,
      run_workflow_background [("G", cycleGraph)] aRegistry
          { graph_id := "G", status := WorkflowStatus.PENDING,
            state := { data := [], history := [] }, current_node := none, error := none } =
        { graph_id := "G", status := WorkflowStatus.COMPLETED,
          state :=
            { data := d1,
              history := ((([] : List String) ++ ex) ++
                ["Max steps (50) reached. Terminating."]) ++ ["Workflow Completed."] },
          current_node := none, error := none } ∧
      ex.length = 50 ∧ ∀ e ∈ ex, ∃ nd, nd ∈ cycleGraph.nodes ∧ e = "Executing: " ++ nd :=
  c2_cycle_truncation cycleGraph aRegistry { data := [], history := [] } [("G", cycleGraph)] "G"
    (by decide)
    (by
      intro name hmem
      have h : name = "a" := by simpa [cycleGraph] using hmem
      subst h
      exact ⟨by decide, "a", rfl, by decide⟩)
    (by
      intro name hmem
      have h : name = "a" := by simpa [cycleGraph] using hmem
      subst h
      exact ⟨noneStep, rfl, fun d => ⟨d, RetVal.pyNone, rfl⟩⟩)
    rfl

/-- C3 counterexample: the claim as stated fails in two ways.  Running a
node whose nonempty conditional mapping lacks the outcome label appends
`"Warning: Outcome \x27next\x27 not defined in edges for node. Ending
workflow."` — the entry claimed in the spec, without the `"Warning: "`
prefix, never appears in the history.  And for a node whose conditional
mapping is empty, the outcome label is not a key of the mapping either,
yet the loop exits without appending any warning, because
`if not edge_config: break` treats the empty dict as falsy. -/
theorem c3_counterexample :
    runHistory (run_workflow condGraph aRegistry 50 { data := [], history := [] }) =
      ["Executing: a",
       "Warning: Outcome \x27next\x27 not defined in edges for node. Ending workflow.",
       "Workflow Completed."] ∧
    ¬ "Outcome \x27next\x27 not defined in edges for node. Ending workflow." ∈
      runHistory (run_workflow condGraph aRegistry 50 { data := [], history := [] }) ∧
    runHistory (run_workflow emptyCondGraph aRegistry 50 { data := [], history := [] }) =
      ["Executing: a", "Workflow Completed."] := by
  decide

/-- C3 amended: for every node whose edge configuration is a conditional
mapping: if the mapping is nonempty and the executed step's outcome label
is not a key of it, the loop appends exactly the entry
`"Warning: Outcome \x27<outcome>\x27 not defined in edges for node. Ending
workflow."` and exits; if the outcome label is a key mapped to the
terminal marker, the loop exits without appending that warning; and if
the mapping is empty, `if not edge_config` treats it like a missing edge
and the loop also exits without the warning. -/
theorem c3_conditional_warning (g : GraphDefinition) (reg : Registry) (ms r : Nat)
    (name : String) (st st1 : WorkflowState) (o : String)
    (m : List (String × Option String))
    (hname : ¬ name = "")
    (hex : execute_node reg name st = ExecResult.ok o st1)
    (hedge : alistGet? g.edges name = some (EdgeConfig.conditional m)) :
    (¬ m = [] → alistGet? m o = none →
      runLoop g reg ms (r + 1) (some name) st =
        LoopResult.exited { st1 with history := st1.history ++
          ["Warning: Outcome \x27" ++ o ++
            "\x27 not defined in edges for node. Ending workflow."] }) ∧
    (¬ m = [] → alistGet? m o = some none →
      runLoop g reg ms (r + 1) (some name) st = LoopResult.exited st1) ∧
    (m = [] →
      runLoop g reg ms (r + 1) (some name) st = LoopResult.exited st1) := by
  refine ⟨?_, ?_, ?_⟩
  · intro hm hlook
    have hm2 : m.isEmpty = false := by
      cases m with
      | nil => exact absurd rfl hm
      | cons p rest => rfl
    exact runLoop_exit_warn g reg ms r name st st1 o m hname hex hedge hm2 hlook
  · intro hm hlook
    have hm2 : m.isEmpty = false := by
      cases m with
      | nil => exact absurd rfl hm
      | cons p rest => rfl
    rw [runLoop_step_cond g reg ms r name st st1 o m none hname hex hedge hm2 hlook]
    exact runLoop_none g reg ms r st1
  · intro hm
    subst hm
    exact runLoop_exit_cond_empty g reg ms r name st st1 o hname hex hedge

theorem c3_conditional_warning_witness :
    runLoop condGraph aRegistry 50 50 (some "a") { data := [], history := [] } =
      LoopResult.exited
        { data := [],
          history := ["Executing: a",
            "Warning: Outcome \x27next\x27 not defined in edges for node. Ending workflow."] } ∧
    runLoop emptyCondGraph aRegistry 50 50 (some "a") { data := [], history := [] } =
      LoopResult.exited { data := [], history := ["Executing: a"] } :=
  ⟨(c3_conditional_warning condGraph aRegistry 50 49 "a" { data := [], history := [] }
      { data := [], history := ["Executing: a"] } "next" [("x", some "a")]
      (by decide) (by decide) (by decide)).1 (by decide) (by decide),
   (c3_conditional_warning emptyCondGraph aRegistry 50 49 "a" { data := [], history := [] }
      { data := [], history := ["Executing: a"] } "next" []
      (by decide) (by decide) (by decide)).2.2 rfl⟩

theorem validateCondTargets_ok_iff (nodes : List String) (m : List (String × Option String)) :
    validateCondTargets nodes m = Except.ok () ↔
      ∀ q ∈ m, ∀ d, q.2 = some d → d ∈ nodes := by
  induction m with
  | nil => simp [validateCondTargets]
  | cons q rest ih =>
    rcases q with ⟨k, dopt⟩
    rcases dopt with _ | dest
    · rw [show validateCondTargets nodes ((k, none) :: rest) =
          validateCondTargets nodes rest from rfl, ih]
      constructor
      · intro h q hq d hd
        rcases List.mem_cons.mp hq with hq1 | hq1
        · subst hq1
          exact Option.noConfusion hd
        · exact h q hq1 d hd
      · intro h q hq d hd
        exact h q (List.mem_cons.mpr (Or.inr hq)) d hd
    · by_cases hd : dest ∈ nodes
      · have hstep : validateCondTargets nodes ((k, some dest) :: rest) =
            validateCondTargets nodes rest := by
          conv_lhs => rw [validateCondTargets]
          rw [if_neg (fun hc => hc hd)]
        rw [hstep, ih]
        constructor
        · intro h q hq d2 hd2
          rcases List.mem_cons.mp hq with hq1 | hq1
          · subst hq1
            obtain rfl : dest = d2 := by injection hd2
            exact hd
          · exact h q hq1 d2 hd2
        · intro h q hq d2 hd2
          exact h q (List.mem_cons.mpr (Or.inr hq)) d2 hd2
      · have hstep : validateCondTargets nodes ((k, some dest) :: rest) =
            Except.error ("Edge target \x27" ++ dest ++ "\x27 not in nodes list") := by
          conv_lhs => rw [validateCondTargets]
          rw [if_pos hd]
        rw [hstep]
        constructor
        · intro h
          exact Except.noConfusion h
        · intro h
          exact absurd (h (k, some dest) (List.mem_cons_self _ _) dest rfl) hd

theorem validate_edges_ok_iff (nodes : List String) (es : EdgeMap) :
    validate_edges nodes es = Except.ok () ↔
      ∀ p ∈ es, p.1 ∈ nodes ∧
        (∀ t, p.2 = EdgeConfig.unconditional t → t ∈ nodes) ∧
        (∀ m, p.2 = EdgeConfig.conditional m →
          ∀ q ∈ m, ∀ d, q.2 = some d → d ∈ nodes) := by
  induction es with
  | nil => simp [validate_edges]
  | cons p rest ih =>
    rcases p with ⟨source, target⟩
    by_cases hs : source ∈ nodes
    · cases target with
      | unconditional t =>
        by_cases ht : t ∈ nodes
        · have hstep : validate_edges nodes ((source, EdgeConfig.unconditional t) :: rest) =
              validate_edges nodes rest := by
            conv_lhs => rw [validate_edges]
            rw [if_neg (fun hc => hc hs)]
            rw [if_neg (fun hc => hc ht)]
          rw [hstep, ih]
          constructor
          · intro h p hp
            rcases List.mem_cons.mp hp with hp1 | hp1
            · subst hp1
              refine ⟨hs, ?_, ?_⟩
              · intro t2 ht2
                obtain rfl : t = t2 := by injection ht2
                exact ht
              · intro m2 hm2
                exact EdgeConfig.noConfusion hm2
            · exact h p hp1
          · intro h p hp
            exact h p (List.mem_cons.mpr (Or.inr hp))
        · have hstep : validate_edges nodes ((source, EdgeConfig.unconditional t) :: rest) =
              Except.error ("Edge target \x27" ++ t ++ "\x27 not in nodes list") := by
            conv_lhs => rw [validate_edges]
            rw [if_neg (fun hc => hc hs)]
            rw [if_pos ht]
          rw [hstep]
          constructor
          · intro h
            exact Except.noConfusion h
          · intro h
            exact absurd
              ((h (source, EdgeConfig.unconditional t) (List.mem_cons_self _ _)).2.1 t rfl) ht
      | conditional m =>
        cases hvc : validateCondTargets nodes m with
        | error e =>
          have hstep : validate_edges nodes ((source, EdgeConfig.conditional m) :: rest) =
              Except.error e := by
            conv_lhs => rw [validate_edges]
            rw [if_neg (fun hc => hc hs)]
            rw [hvc]
          rw [hstep]
          constructor
          · intro h
            exact Except.noConfusion h
          · intro h
            have h2 : validateCondTargets nodes m = Except.ok () :=
              (validateCondTargets_ok_iff nodes m).mpr
                ((h (source, EdgeConfig.conditional m) (List.mem_cons_self _ _)).2.2 m rfl)
            rw [hvc] at h2
            exact Except.noConfusion h2
        | ok u =>
          cases u
          have hprop := (validateCondTargets_ok_iff nodes m).mp hvc
          have hstep : validate_edges nodes ((source, EdgeConfig.conditional m) :: rest) =
              validate_edges nodes rest := by
            conv_lhs => rw [validate_edges]
            rw [if_neg (fun hc => hc hs)]
            rw [hvc]
          rw [hstep, ih]
          constructor
          · intro h p hp
            rcases List.mem_cons.mp hp with hp1 | hp1
            · subst hp1
              refine ⟨hs, ?_, ?_⟩
              · intro t2 ht2
                exact EdgeConfig.noConfusion ht2
              · intro m2 hm2
                obtain rfl : m = m2 := by injection hm2
                exact hprop
            · exact h p hp1
          · intro h p hp
            exact h p (List.mem_cons.mpr (Or.inr hp))
    · have hstep : validate_edges nodes ((source, target) :: rest) =
          Except.error ("Edge source \x27" ++ source ++ "\x27 not in nodes list") := by
        cases target with
        | unconditional t =>
          conv_lhs => rw [validate_edges]
          rw [if_pos hs]
        | conditional m =>
          conv_lhs => rw [validate_edges]
          rw [if_pos hs]
      rw [hstep]
      constructor
      · intro h
        exact Except.noConfusion h
      · intro h
        exact absurd (h (source, target) (List.mem_cons_self _ _)).1 hs

/-- C4: constructing a `GraphDefinition` succeeds exactly when `start_node`
is a member of `nodes`, every edge source is a member of `nodes`, and every
edge destination that is not the terminal marker (the unconditional string
target, or a non-`None` value of a conditional mapping) is a member of
`nodes`; moreover, when only the `start_node` invariant fails, the
validation error names that node. -/
theorem c4_graph_validation (nodes : List String) (edges : EdgeMap) (start_node : String) :
    ((∃ g, mkGraphDefinition nodes edges start_node = Except.ok g) ↔
      (start_node ∈ nodes ∧
        ∀ p ∈ edges, p.1 ∈ nodes ∧
          (∀ t, p.2 = EdgeConfig.unconditional t → t ∈ nodes) ∧
          (∀ m, p.2 = EdgeConfig.conditional m →
            ∀ q ∈ m, ∀ d, q.2 = some d → d ∈ nodes))) ∧
    (validate_edges nodes edges = Except.ok () → ¬ start_node ∈ nodes →
      mkGraphDefinition nodes edges start_node =
        Except.error ("start_node \x27" ++ start_node ++ "\x27 must be in nodes list")) := by
  constructor
  · constructor
    · rintro ⟨g, hg⟩
      unfold mkGraphDefinition at hg
      cases hve : validate_edges nodes edges with
      | error e =>
        rw [hve] at hg
        exact Except.noConfusion hg
      | ok u =>
        cases u
        rw [hve] at hg
        unfold validate_start_node at hg
        by_cases hsn : start_node ∈ nodes
        · exact ⟨hsn, (validate_edges_ok_iff nodes edges).mp hve⟩
        · rw [if_pos hsn] at hg
          exact Except.noConfusion hg
    · rintro ⟨hsn, hforall⟩
      have hve : validate_edges nodes edges = Except.ok () :=
        (validate_edges_ok_iff nodes edges).mpr hforall
      refine ⟨{ nodes := nodes, edges := edges, start_node := start_node }, ?_⟩
      unfold mkGraphDefinition
      rw [hve]
      unfold validate_start_node
      rw [if_neg (fun hc => hc hsn)]
  · intro hve hsn
    unfold mkGraphDefinition
    rw [hve]
    unfold validate_start_node
    rw [if_pos hsn]

theorem c4_graph_validation_witness :
    (¬ ∃ g, mkGraphDefinition ["a"] [] "b" = Except.ok g) ∧
    mkGraphDefinition ["a"] [] "b" = Except.error "start_node \x27b\x27 must be in nodes list" ∧
    ∃ g, mkGraphDefinition ["a"] [("a", EdgeConfig.unconditional "a")] "a" = Except.ok g := by
  refine ⟨?_, ?_, ?_⟩
  · intro hok
    have h := (c4_graph_validation ["a"] [] "b").1.mp hok
    exact absurd h.1 (by decide)
  · exact (c4_graph_validation ["a"] [] "b").2 rfl (by decide)
  · exact (c4_graph_validation ["a"] [("a", EdgeConfig.unconditional "a")] "a").1.mpr
      ⟨by decide, by
        intro p hp
        have hp2 : p = ("a", EdgeConfig.unconditional "a") := by simpa using hp
        subst hp2
        refine ⟨by decide, ?_, ?_⟩
        · intro t ht
          obtain rfl : "a" = t := by injection ht
          decide
        · intro m hm
          exact EdgeConfig.noConfusion hm⟩

/-- C5: submitting a run fails with a 404 not-found when the graph id is
not in the store; otherwise, when some graph node lacks a registered step,
it fails with a 400 validation error listing exactly the missing names
(before any run record is created or any node executes); otherwise a new
PENDING run holding the caller's initial data and an empty history is
created and handed to the background scheduler. -/
theorem c5_run_graph (graphs_db : List (String × GraphDefinition)) (registry : Registry)
    (graph_id : String) (initial_state : Data) :
    (alistGet? graphs_db graph_id = none →
      run_graph graphs_db registry graph_id initial_state =
        RunGraphResult.notFound ("Graph \x27" ++ graph_id ++ "\x27 not found")) ∧
    (∀ graph, alistGet? graphs_db graph_id = some graph →
      (¬ graph.nodes.filter (fun node => (alistGet? registry node).isNone) = [] →
        run_graph graphs_db registry graph_id initial_state =
          RunGraphResult.badRequest
            ("The following nodes are not registered: " ++
              pyReprStrList
                (graph.nodes.filter (fun node => (alistGet? registry node).isNone)))) ∧
      (graph.nodes.filter (fun node => (alistGet? registry node).isNone) = [] →
        run_graph graphs_db registry graph_id initial_state =
          RunGraphResult.submitted
            { graph_id := graph_id, status := WorkflowStatus.PENDING,
              state := { data := initial_state, history := [] },
              current_node := none, error := none })) := by
  refine ⟨?_, ?_⟩
  · intro h
    unfold run_graph
    rw [h]
  · intro graph hg
    constructor
    · intro hne
      have hisEmpty : (graph.nodes.filter (fun node => (alistGet? registry node).isNone)).isEmpty
          = false := by
        cases hl : graph.nodes.filter (fun node => (alistGet? registry node).isNone) with
        | nil => exact absurd hl hne
        | cons a l => rfl
      unfold run_graph
      rw [hg]
      simp [hisEmpty]
    · intro hnil
      have hisEmpty : (graph.nodes.filter (fun node => (alistGet? registry node).isNone)).isEmpty
          = true := by
        rw [hnil]
        rfl
      unfold run_graph
      rw [hg]
      simp [hisEmpty]

theorem c5_run_graph_witness :
    run_graph fixtureGraphsDb fixtureRegistry "nope" [] =
      RunGraphResult.notFound "Graph \x27nope\x27 not found" ∧
    run_graph fixtureGraphsDb [] "code-review-agent" [] =
      RunGraphResult.badRequest
        ("The following nodes are not registered: [\x27extract_functions\x27, \x27check_complexity\x27, \x27detect_issues\x27, \x27suggest_improvements\x27, \x27quality_gate\x27]") ∧
    run_graph fixtureGraphsDb fixtureRegistry "code-review-agent" [] =
      RunGraphResult.submitted
        { graph_id := "code-review-agent", status := WorkflowStatus.PENDING,
          state := { data := [], history := [] }, current_node := none, error := none } :=
  ⟨(c5_run_graph fixtureGraphsDb fixtureRegistry "nope" []).1 rfl,
   ((c5_run_graph fixtureGraphsDb [] "code-review-agent" []).2 fixtureGraph rfl).1 (by decide),
   ((c5_run_graph fixtureGraphsDb fixtureRegistry "code-review-agent" []).2 fixtureGraph rfl).2
     (by decide)⟩

/-- C6: for a registered node whose step raises a failure with message
`msg`, `execute_node` appends `"Executing: <name>"` (logged before the
step runs) and then `"Error in <name>: <msg>"`, re-raising the same
failure message to its caller, so the history ends with those two entries
in that order. -/
theorem c6_step_failure_logged (reg : Registry) (name : String) (f : Step)
    (st : WorkflowState) (d1 : Data) (msg : String)
    (hf : alistGet? reg name = some f)
    (hrun : f st.data = (d1, StepOutcome.exn msg)) :
    execute_node reg name st =
      ExecResult.exn msg
        { data := d1,
          history := st.history ++
            ["Executing: " ++ name, "Error in " ++ name ++ ": " ++ msg] } := by
  rw [execute_node_exn_eq reg name f st d1 msg hf hrun]
  simp

theorem c6_step_failure_logged_witness :
    execute_node [("a", failStep)] "a" { data := [], history := [] } =
      ExecResult.exn "boom"
        { data := [], history := ["Executing: a", "Error in a: boom"] } :=
  c6_step_failure_logged [("a", failStep)] "a" failStep { data := [], history := [] } [] "boom"
    rfl rfl

/-- C7: for a registered node whose step returns normally, the outcome
label `execute_node` yields equals the step's return value when that value
is a string, and `"next"` in every other case (a `None` return or any
non-string value). -/
theorem c7_outcome_canonicalization (reg : Registry) (name : String) (f : Step)
    (st : WorkflowState) (d1 : Data) (v : RetVal)
    (hf : alistGet? reg name = some f)
    (hrun : f st.data = (d1, StepOutcome.ret v)) :
    execute_node reg name st =
      ExecResult.ok
        (match v with
         | RetVal.pyStr s => s
         | RetVal.pyNone => "next"
         | RetVal.pyOther => "next")
        { data := d1, history := st.history ++ ["Executing: " ++ name] } := by
  rw [execute_node_ok_eq reg name f st d1 v hf hrun]
  cases v <;> rfl

theorem c7_outcome_canonicalization_witness :
    execute_node [("a", noneStep)] "a" { data := [], history := [] } =
      ExecResult.ok "next" { data := [], history := ["Executing: a"] } ∧
    execute_node [("a", strStep)] "a" { data := [], history := [] } =
      ExecResult.ok "go" { data := [], history := ["Executing: a"] } ∧
    execute_node [("a", otherStep)] "a" { data := [], history := [] } =
      ExecResult.ok "next" { data := [], history := ["Executing: a"] } :=
  ⟨c7_outcome_canonicalization [("a", noneStep)] "a" noneStep { data := [], history := [] }
      [] RetVal.pyNone rfl rfl,
   c7_outcome_canonicalization [("a", strStep)] "a" strStep { data := [], history := [] }
      [] (RetVal.pyStr "go") rfl rfl,
   c7_outcome_canonicalization [("a", otherStep)] "a" otherStep { data := [], history := [] }
      [] RetVal.pyOther rfl rfl⟩

/-- C10: for a node name absent from the registry, `execute_node` raises
the not-found error and returns the `WorkflowState` completely unchanged:
the registry check precedes the history append, so no `"Executing: ..."`
entry, no error entry, and no data change happens. -/
theorem c10_unregistered_node_untouched (reg : Registry) (name : String) (st : WorkflowState)
    (h : alistGet? reg name = none) :
    execute_node reg name st =
      ExecResult.exn ("Node \x27" ++ name ++ "\x27 not found in registry.") st := by
  unfold execute_node
  rw [h]

theorem c10_unregistered_node_untouched_witness :
    execute_node [] "a" { data := [("k", Value.vInt 1)], history := ["old"] } =
      ExecResult.exn "Node \x27a\x27 not found in registry."
        { data := [("k", Value.vInt 1)], history := ["old"] } :=
  c10_unregistered_node_untouched [] "a"
    { data := [("k", Value.vInt 1)], history := ["old"] } rfl

set_option maxHeartbeats 1000000 in
theorem c8_loop :
    runLoop fixtureGraph fixtureRegistry 50 50 (some "extract_functions") c8s0 =
      LoopResult.exited c8s14 := by
  calc runLoop fixtureGraph fixtureRegistry 50 50 (some "extract_functions") c8s0
      = runLoop fixtureGraph fixtureRegistry 50 49 (some "check_complexity") c8s1 :=
        runLoop_step_uncond fixtureGraph fixtureRegistry 50 49 "extract_functions" c8s0 c8s1 "next" "check_complexity" (by decide) (by decide) (by decide) (by decide)
    _ = runLoop fixtureGraph fixtureRegistry 50 48 (some "detect_issues") c8s2 :=
        runLoop_step_uncond fixtureGraph fixtureRegistry 50 48 "check_complexity" c8s1 c8s2 "next" "detect_issues" (by decide) (by decide) (by decide) (by decide)
    _ = runLoop fixtureGraph fixtureRegistry 50 47 (some "suggest_improvements") c8s3 :=
        runLoop_step_uncond fixtureGraph fixtureRegistry 50 47 "detect_issues" c8s2 c8s3 "next" "suggest_improvements" (by decide) (by decide) (by decide) (by decide)
    _ = runLoop fixtureGraph fixtureRegistry 50 46 (some "quality_gate") c8s4 :=
        runLoop_step_uncond fixtureGraph fixtureRegistry 50 46 "suggest_improvements" c8s3 c8s4 "next" "quality_gate" (by decide) (by decide) (by decide) (by decide)
    _ = runLoop fixtureGraph fixtureRegistry 50 45 (some "detect_issues") c8s5 :=
        runLoop_step_cond fixtureGraph fixtureRegistry 50 45 "quality_gate" c8s4 c8s5 "retry" [("retry", some "detect_issues"), ("pass", none)] (some "detect_issues") (by decide) (by decide) (by decide) (by decide) (by decide)
    _ = runLoop fixtureGraph fixtureRegistry 50 44 (some "suggest_improvements") c8s6 :=
        runLoop_step_uncond fixtureGraph fixtureRegistry 50 44 "detect_issues" c8s5 c8s6 "next" "suggest_improvements" (by decide) (by decide) (by decide) (by decide)
    _ = runLoop fixtureGraph fixtureRegistry 50 43 (some "quality_gate") c8s7 :=
        runLoop_step_uncond fixtureGraph fixtureRegistry 50 43 "suggest_improvements" c8s6 c8s7 "next" "quality_gate" (by decide) (by decide) (by decide) (by decide)
    _ = runLoop fixtureGraph fixtureRegistry 50 42 (some "detect_issues") c8s8 :=
        runLoop_step_cond fixtureGraph fixtureRegistry 50 42 "quality_gate" c8s7 c8s8 "retry" [("retry", some "detect_issues"), ("pass", none)] (some "detect_issues") (by decide) (by decide) (by decide) (by decide) (by decide)
    _ = runLoop fixtureGraph fixtureRegistry 50 41 (some "suggest_improvements") c8s9 :=
        runLoop_step_uncond fixtureGraph fixtureRegistry 50 41 "detect_issues" c8s8 c8s9 "next" "suggest_improvements" (by decide) (by decide) (by decide) (by decide)
    _ = runLoop fixtureGraph fixtureRegistry 50 40 (some "quality_gate") c8s10 :=
        runLoop_step_uncond fixtureGraph fixtureRegistry 50 40 "suggest_improvements" c8s9 c8s10 "next" "quality_gate" (by decide) (by decide) (by decide) (by decide)
    _ = runLoop fixtureGraph fixtureRegistry 50 39 (some "detect_issues") c8s11 :=
        runLoop_step_cond fixtureGraph fixtureRegistry 50 39 "quality_gate" c8s10 c8s11 "retry" [("retry", some "detect_issues"), ("pass", none)] (some "detect_issues") (by decide) (by decide) (by decide) (by decide) (by decide)
    _ = runLoop fixtureGraph fixtureRegistry 50 38 (some "suggest_improvements") c8s12 :=
        runLoop_step_uncond fixtureGraph fixtureRegistry 50 38 "detect_issues" c8s11 c8s12 "next" "suggest_improvements" (by decide) (by decide) (by decide) (by decide)
    _ = runLoop fixtureGraph fixtureRegistry 50 37 (some "quality_gate") c8s13 :=
        runLoop_step_uncond fixtureGraph fixtureRegistry 50 37 "suggest_improvements" c8s12 c8s13 "next" "quality_gate" (by decide) (by decide) (by decide) (by decide)
    _ = runLoop fixtureGraph fixtureRegistry 50 36 none c8s14 :=
        runLoop_step_cond fixtureGraph fixtureRegistry 50 36 "quality_gate" c8s13 c8s14 "pass" [("retry", some "detect_issues"), ("pass", none)] none (by decide) (by decide) (by decide) (by decide) (by decide)
    _ = LoopResult.exited c8s14 := runLoop_none fixtureGraph fixtureRegistry 50 36 c8s14

set_option maxHeartbeats 1000000 in
theorem c9_loop :
    runLoop fixtureGraph fixtureRegistry 50 50 (some "extract_functions") c9s0 =
      LoopResult.raised "\x27history\x27" c9s5 := by
  calc runLoop fixtureGraph fixtureRegistry 50 50 (some "extract_functions") c9s0
      = runLoop fixtureGraph fixtureRegistry 50 49 (some "check_complexity") c9s1 :=
        runLoop_step_uncond fixtureGraph fixtureRegistry 50 49 "extract_functions" c9s0 c9s1 "next" "check_complexity" (by decide) (by decide) (by decide) (by decide)
    _ = runLoop fixtureGraph fixtureRegistry 50 48 (some "detect_issues") c9s2 :=
        runLoop_step_uncond fixtureGraph fixtureRegistry 50 48 "check_complexity" c9s1 c9s2 "next" "detect_issues" (by decide) (by decide) (by decide) (by decide)
    _ = runLoop fixtureGraph fixtureRegistry 50 47 (some "suggest_improvements") c9s3 :=
        runLoop_step_uncond fixtureGraph fixtureRegistry 50 47 "detect_issues" c9s2 c9s3 "next" "suggest_improvements" (by decide) (by decide) (by decide) (by decide)
    _ = runLoop fixtureGraph fixtureRegistry 50 46 (some "quality_gate") c9s4 :=
        runLoop_step_uncond fixtureGraph fixtureRegistry 50 46 "suggest_improvements" c9s3 c9s4 "next" "quality_gate" (by decide) (by decide) (by decide) (by decide)
    _ = LoopResult.raised "\x27history\x27" c9s5 :=
        runLoop_step_raised fixtureGraph fixtureRegistry 50 45 "quality_gate" c9s4 c9s5
          "\x27history\x27" (by decide) (by decide)

set_option maxHeartbeats 1000000 in
theorem c8_run :
    run_workflow fixtureGraph fixtureRegistry 50 c8s0 =
      RunResult.completed
        { c8s14 with history := c8s14.history ++ ["Workflow Completed."] } := by
  unfold run_workflow
  rw [show fixtureGraph.start_node = "extract_functions" from rfl, c8_loop]

set_option maxHeartbeats 1000000 in
theorem c8_bg :
    run_workflow_background fixtureGraphsDb fixtureRegistry
      { graph_id := "code-review-agent", status := WorkflowStatus.PENDING,
        state := c8s0, current_node := none, error := none } =
      { graph_id := "code-review-agent", status := WorkflowStatus.COMPLETED,
        state := { c8s14 with history := c8s14.history ++ ["Workflow Completed."] },
        current_node := none, error := none } := by
  simp only [run_workflow_background,
    show alistGet? fixtureGraphsDb "code-review-agent" = some fixtureGraph from rfl,
    show engineMaxSteps = 50 from rfl, c8_run]

set_option maxHeartbeats 1000000 in
theorem c9_run :
    run_workflow fixtureGraph fixtureRegistry 50 c9s0 =
      RunResult.failed "\x27history\x27" c9s5 := by
  unfold run_workflow
  rw [show fixtureGraph.start_node = "extract_functions" from rfl, c9_loop]

set_option maxHeartbeats 1000000 in
theorem c9_bg :
    run_workflow_background fixtureGraphsDb fixtureRegistry
      { graph_id := "code-review-agent", status := WorkflowStatus.PENDING,
        state := c9s0, current_node := none, error := none } =
      { graph_id := "code-review-agent", status := WorkflowStatus.FAILED,
        state :=
          { data := c9s5.data,
            history := c9s5.history ++ ["Workflow failed: \x27history\x27"] },
        current_node := none, error := some "\x27history\x27" } := by
  simp only [run_workflow_background,
    show alistGet? fixtureGraphsDb "code-review-agent" = some fixtureGraph from rfl,
    show engineMaxSteps = 50 from rfl, c9_run]
  rfl

set_option maxHeartbeats 2000000 in
/-- C8: running the preloaded `code-review-agent` graph on initial data
whose `code` field contains three `def ` lines and whose `history` key is
preseeded to `[]`: the traversal passes the linear chain once and then
cycles `detect_issues → suggest_improvements → quality_gate` three more
times, `quality_gate` runs four times with `quality_score` 20, 40, 60, 80
(returning `retry` three times, then `pass` on the terminal edge), and the
run ends COMPLETED. -/
theorem c8_fixture_retry_loop :
    (run_workflow_background fixtureGraphsDb fixtureRegistry
        { graph_id := "code-review-agent", status := WorkflowStatus.PENDING,
          state := { data := c8data, history := [] },
          current_node := none, error := none }).status = WorkflowStatus.COMPLETED ∧
    dataGetList (run_workflow_background fixtureGraphsDb fixtureRegistry
        { graph_id := "code-review-agent", status := WorkflowStatus.PENDING,
          state := { data := c8data, history := [] },
          current_node := none, error := none }).state.data "history" =
      ["Quality Gate: score=20", "Quality Gate: score=40",
       "Quality Gate: score=60", "Quality Gate: score=80"] ∧
    (run_workflow_background fixtureGraphsDb fixtureRegistry
        { graph_id := "code-review-agent", status := WorkflowStatus.PENDING,
          state := { data := c8data, history := [] },
          current_node := none, error := none }).state.history =
      ["Executing: extract_functions", "Executing: check_complexity",
       "Executing: detect_issues", "Executing: suggest_improvements", "Executing: quality_gate",
       "Executing: detect_issues", "Executing: suggest_improvements", "Executing: quality_gate",
       "Executing: detect_issues", "Executing: suggest_improvements", "Executing: quality_gate",
       "Executing: detect_issues", "Executing: suggest_improvements", "Executing: quality_gate",
       "Workflow Completed."] := by
  rw [show ({ data := c8data, history := [] } : WorkflowState) = c8s0 from rfl, c8_bg]
  decide

set_option maxHeartbeats 2000000 in
/-- C9: running the preloaded `code-review-agent` graph on the same
initial data but with no `history` key: `extract_functions` collects 3
lines, `complexity_score` becomes 6, `issues` becomes nonempty,
`quality_score` becomes 20, and `quality_gate`'s subscript of the absent
`data["history"]` raises `KeyError`, so the run ends FAILED with the
recorded error message referencing the missing key. -/
theorem c9_fixture_missing_history :
    (run_workflow_background fixtureGraphsDb fixtureRegistry
        { graph_id := "code-review-agent", status := WorkflowStatus.PENDING,
          state := { data := c9data, history := [] },
          current_node := none, error := none }).status = WorkflowStatus.FAILED ∧
    (run_workflow_background fixtureGraphsDb fixtureRegistry
        { graph_id := "code-review-agent", status := WorkflowStatus.PENDING,
          state := { data := c9data, history := [] },
          current_node := none, error := none }).error = some "\x27history\x27" ∧
    dataGetList (run_workflow_background fixtureGraphsDb fixtureRegistry
        { graph_id := "code-review-agent", status := WorkflowStatus.PENDING,
          state := { data := c9data, history := [] },
          current_node := none, error := none }).state.data "functions" =
      ["def a():", "def b():", "def c():"] ∧
    dataGetInt (run_workflow_background fixtureGraphsDb fixtureRegistry
        { graph_id := "code-review-agent", status := WorkflowStatus.PENDING,
          state := { data := c9data, history := [] },
          current_node := none, error := none }).state.data "complexity_score" 0 = 6 ∧
    dataGetList (run_workflow_background fixtureGraphsDb fixtureRegistry
        { graph_id := "code-review-agent", status := WorkflowStatus.PENDING,
          state := { data := c9data, history := [] },
          current_node := none, error := none }).state.data "issues" =
      ["Line 10: Too long"] ∧
    dataGetInt (run_workflow_background fixtureGraphsDb fixtureRegistry
        { graph_id := "code-review-agent", status := WorkflowStatus.PENDING,
          state := { data := c9data, history := [] },
          current_node := none, error := none }).state.data "quality_score" 0 = 20 ∧
    (run_workflow_background fixtureGraphsDb fixtureRegistry
        { graph_id := "code-review-agent", status := WorkflowStatus.PENDING,
          state := { data := c9data, history := [] },
          current_node := none, error := none }).state.history =
      ["Executing: extract_functions", "Executing: check_complexity",
       "Executing: detect_issues", "Executing: suggest_improvements", "Executing: quality_gate",
       "Error in quality_gate: \x27history\x27", "Workflow failed: \x27history\x27"] := by
  rw [show ({ data := c9data, history := [] } : WorkflowState) = c9s0 from rfl, c9_bg]
  decide
